import Mathlib

set_option maxRecDepth 8192

/-!
Shallow embedding of the quota-aware image-generation lifecycle of
`bot_new.py`: prompt policy (`validate_prompt`, `enhance_prompt`), the
preference/quota store (`DatabaseManager`), the `/imagine` pipeline and the
follow-up actions of `AdvancedImageView` (variation, zoom in/out).

The SQLite tables are modelled as lists of rows; `UPDATE ... WHERE user_id = ?`
becomes a per-row conditional map, `INSERT` an append.  Dates are abstract day
indices (only equality of `last_generation_date` with "today" matters).  The
external inference call is an oracle `disp : String → String → Bool` (enriched
prompt, model id) telling whether the call succeeds, and the randomly chosen
follow-up modifier is an explicit parameter.  Each pipeline run also returns a
trace of stage events so that ordering and call-count properties can be stated.
-/

-- ==================== CONFIGURATION ====================

def MAX_IMAGES_PER_USER_FREE : Nat := 10
def MAX_IMAGES_PER_USER_PREMIUM : Nat := 50
def MAX_PROMPT_LENGTH : Nat := 500

-- ==================== MODELS AND PRESETS ====================

/-- The `AVAILABLE_MODELS` catalog, restricted to the `id` field (the only one the
pipeline reads). -/
def AVAILABLE_MODELS : List (String × String) :=
  [("FLUX.1", "black-forest-labs/FLUX.1-schnell"),
   ("FLUX.1-DEV", "black-forest-labs/FLUX.1-dev"),
   ("SDXL", "stabilityai/stable-diffusion-xl-base-1.0"),
   ("SD1.5", "runwayml/stable-diffusion-v1-5")]

/-- Python dict lookup `AVAILABLE_MODELS[name]["id"]`; `none` models the
`KeyError` on an unknown model name. -/
def modelId (name : String) : Option String :=
  (AVAILABLE_MODELS.find? (fun p => p.1 == name)).map (fun p => p.2)

def STYLE_PRESETS : List (String × String) :=
  [("Photorealistic", "hyperrealistic, photographic, detailed, 8k resolution"),
   ("Anime", "anime style, manga, cel shading, vibrant colors"),
   ("Oil Painting", "oil painting, classical art, brush strokes, artistic"),
   ("Cyberpunk", "cyberpunk, neon lights, futuristic, dark atmosphere"),
   ("Fantasy", "fantasy art, magical, ethereal, mystical"),
   ("Minimalist", "minimalist, clean, simple, modern design"),
   ("Watercolor", "watercolor painting, soft colors, flowing"),
   ("Digital Art", "digital art, concept art, detailed illustration")]

/-- Python `STYLE_PRESETS[style]` / `style in STYLE_PRESETS`. -/
def styleLookup (style : String) : Option String :=
  (STYLE_PRESETS.find? (fun p => p.1 == style)).map (fun p => p.2)

-- ==================== UTILITY FUNCTIONS ====================

/-- Prefix test `sub.isPrefixOf s` on character lists, written out. -/
def listIsPrefix : List Char → List Char → Bool
  | [], _ => true
  | _ :: _, [] => false
  | a :: as, b :: bs => a == b && listIsPrefix as bs

/-- Python substring test `sub in s`, on character lists. -/
def listHasSub : List Char → List Char → Bool
  | [], sub => listIsPrefix sub []
  | a :: t, sub => listIsPrefix sub (a :: t) || listHasSub t sub

/-- Python `sub in s` for strings. -/
def strHasSub (s sub : String) : Bool :=
  listHasSub s.toList sub.toList

/-- Python `str.lower()`, written over the character list. -/
def strLower (s : String) : String :=
  String.mk (s.toList.map Char.toLower)

def blocked_words : List String := ["nsfw", "explicit"]

/-- Function `validate_prompt` from `bot_new.py`: `(ok, error message)`. -/
def validate_prompt (prompt : String) : Bool × String :=
  if prompt.length > MAX_PROMPT_LENGTH then
    (false, "Prompt too long! Maximum 500 characters.")
  else if blocked_words.any (fun word => strHasSub (strLower prompt) word) then
    (false, "Prompt contains blocked content.")
  else
    (true, "")

/-- Function `enhance_prompt` from `bot_new.py`. -/
def enhance_prompt (prompt style quality : String) : String :=
  let enhanced :=
    match styleLookup style with
    | some descriptor => prompt ++ ", " ++ descriptor
    | none => prompt
  if quality = "High" ∨ quality = "Ultra" then
    enhanced ++ ", high quality, detailed, sharp"
  else
    enhanced

-- ==================== DATA MODEL ====================

/-- One row of the `users` table. -/
structure UserRow where
  user_id : String
  username : String
  total_generations : Nat
  daily_generations : Nat
  last_generation_date : Nat
  preferred_model : String
  preferred_style : String
  preferred_quality : String
  is_premium : Bool
deriving DecidableEq, Repr

/-- One row of the `generations` table. -/
structure GenerationRow where
  user_id : String
  prompt : String
  model_used : String
  style_used : String
  quality_used : String
  generation_time : Nat
deriving DecidableEq, Repr

/-- The SQLite database: `users` and `generations` tables. -/
structure Store where
  users : List UserRow
  generations : List GenerationRow
deriving DecidableEq, Repr

def emptyStore : Store := { users := [], generations := [] }

/-- Query `SELECT * FROM users WHERE user_id = ?` followed by `fetchone()`. -/
def findUser (s : Store) (uid : String) : Option UserRow :=
  s.users.find? (fun u => u.user_id == uid)

/-- The row inserted for a previously unseen user: every column takes its
schema default, `last_generation_date` is today. -/
def defaultUser (uid : String) (today : Nat) : UserRow :=
  { user_id := uid
    username := ""
    total_generations := 0
    daily_generations := 0
    last_generation_date := today
    preferred_model := "FLUX.1"
    preferred_style := "Photorealistic"
    preferred_quality := "Standard"
    is_premium := false }

/-- Row effect of `UPDATE users SET daily_generations = 0,
last_generation_date = today WHERE user_id = uid`. -/
def rolloverUser (today : Nat) (uid : String) (u : UserRow) : UserRow :=
  if u.user_id == uid then
    { u with daily_generations := 0, last_generation_date := today }
  else u

/-- Method `DatabaseManager.get_user_data`: read, lazily creating the account and
performing the daily rollover; returns the updated store and the data the
caller sees. -/
def get_user_data (s : Store) (today : Nat) (uid : String) : Store × UserRow :=
  match findUser s uid with
  | none =>
      let u := defaultUser uid today
      ({ s with users := s.users ++ [u] }, u)
  | some u =>
      if u.last_generation_date ≠ today then
        ({ s with users := s.users.map (rolloverUser today uid) },
         { u with daily_generations := 0, last_generation_date := today })
      else
        (s, u)

/-- Row effect of `UPDATE users SET total_generations = total_generations + 1,
daily_generations = daily_generations + 1 WHERE user_id = uid`. -/
def bumpUser (uid : String) (u : UserRow) : UserRow :=
  if u.user_id == uid then
    { u with total_generations := u.total_generations + 1,
             daily_generations := u.daily_generations + 1 }
  else u

/-- Method `DatabaseManager.update_user_generation`: increment both counters and
append one `generations` row. -/
def update_user_generation (s : Store) (uid prompt model style quality : String)
    (gtime : Nat) : Store :=
  { users := s.users.map (bumpUser uid)
    generations := s.generations ++
      [{ user_id := uid, prompt := prompt, model_used := model,
         style_used := style, quality_used := quality, generation_time := gtime }] }

/-- Row effect of the dynamic `UPDATE users SET preferred_... WHERE user_id = uid`
built by `update_user_preferences`; `none` means the field was not supplied. -/
def setPrefs (model style quality : Option String) (uid : String) (u : UserRow) : UserRow :=
  if u.user_id == uid then
    { u with preferred_model := model.getD u.preferred_model,
             preferred_style := style.getD u.preferred_style,
             preferred_quality := quality.getD u.preferred_quality }
  else u

/-- Method `DatabaseManager.update_user_preferences`. -/
def update_user_preferences (s : Store) (uid : String)
    (model style quality : Option String) : Store :=
  { s with users := s.users.map (setPrefs model style quality uid) }

-- ==================== PIPELINE EVENTS ====================

/-- Observable stages of a request, used to state ordering and call-count
properties.  `dispatch` is the call to the external inference capability. -/
inductive Event where
  | storeRead
  | quotaCheck
  | validateStage
  | enrichStage
  | dispatch
  | record
deriving DecidableEq, Repr

/-- Outcome of one `/imagine` invocation, as reported to the user. -/
inductive Outcome where
  | quotaExceeded
  | validationError (msg : String)
  | generationFailed
  | success (enriched : String)
deriving DecidableEq, Repr

structure ImagineRun where
  store : Store
  trace : List Event
  outcome : Outcome
deriving DecidableEq, Repr

-- ==================== ADVANCED IMAGE VIEW ====================

/-- State of `AdvancedImageView` relevant to the pipeline (the 5-second
button cooldown is wall-clock and not modelled). -/
structure AdvancedImageView where
  image_url : String
  prompt : String
  user_id : String
  model_name : String
  style : String
  quality : String
  zoom_level : Nat
deriving DecidableEq, Repr

/-- Constructor `AdvancedImageView.__init__`: the zoom level always starts at 1. -/
def mkView (image_url prompt user_id model_name style quality : String) :
    AdvancedImageView :=
  { image_url, prompt, user_id, model_name, style, quality, zoom_level := 1 }

/-- Result of a follow-up button press: updated store, stage trace, and the
fresh view attached to the new message (`none` when the handler failed). -/
structure FollowRun where
  store : Store
  trace : List Event
  newView : Option AdvancedImageView
deriving DecidableEq, Repr

/-- Handler `AdvancedImageView.variation_button`.  `modifier` is the randomly chosen
entry of `variation_modifiers`; `disp` tells whether the external call
succeeds.  Note: no store read and no quota check occur. -/
def variation_button (disp : String → String → Bool) (modifier : String)
    (gtime : Nat) (v : AdvancedImageView) (s : Store) : FollowRun :=
  let variation_prompt := v.prompt ++ ", " ++ modifier
  match modelId v.model_name with
  | none => { store := s, trace := [], newView := none }
  | some mid =>
      if disp variation_prompt mid then
        { store := update_user_generation s v.user_id variation_prompt
            v.model_name v.style v.quality gtime
          trace := [.dispatch, .record]
          newView := some (mkView "attachment://variation.png" variation_prompt
            v.user_id v.model_name v.style v.quality) }
      else
        { store := s, trace := [.dispatch], newView := none }

/-- Handler `AdvancedImageView.generate_zoomed_image` (handles both Zoom In and
Zoom Out).  `modifier` is the randomly chosen zoom modifier.  The style
descriptor lookup `STYLE_PRESETS[self.style]` and the model-id lookup happen
before the external call; a `KeyError` there is caught without dispatching. -/
def generate_zoomed_image (disp : String → String → Bool) (modifier : String)
    (gtime : Nat) (zoom_in : Bool) (v : AdvancedImageView) (s : Store) : FollowRun :=
  let new_zoom_level := if zoom_in then v.zoom_level + 1 else max 1 (v.zoom_level - 1)
  match styleLookup v.style, modelId v.model_name with
  | some descriptor, some mid =>
      let zoom_prompt := v.prompt ++ ", " ++ modifier ++ ", " ++ descriptor
      if disp zoom_prompt mid then
        { store := update_user_generation s v.user_id zoom_prompt
            v.model_name v.style v.quality gtime
          trace := [.dispatch, .record]
          newView := some { mkView "attachment://zoomed_image.png" zoom_prompt
              v.user_id v.model_name v.style v.quality with
              zoom_level := new_zoom_level } }
      else
        { store := s, trace := [.dispatch], newView := none }
  | _, _ => { store := s, trace := [], newView := none }

-- ==================== MAIN COMMAND ====================

/-- The `/imagine` handler.  Optional `style`/`quality`/`model` arguments
default to the stored preferences; the quota ceiling depends on the tier
flag.  Mirrors the source order: store read, quota check, validation,
enrichment, dispatch, record. -/
def imagine (disp : String → String → Bool) (gtime : Nat) (s : Store)
    (today : Nat) (uid prompt : String)
    (style quality model : Option String) : ImagineRun :=
  let rd := get_user_data s today uid
  let s1 := rd.1
  let user := rd.2
  let model_name := model.getD user.preferred_model
  let style_name := style.getD user.preferred_style
  let quality_name := quality.getD user.preferred_quality
  let max_images := if user.is_premium then MAX_IMAGES_PER_USER_PREMIUM
                    else MAX_IMAGES_PER_USER_FREE
  if user.daily_generations ≥ max_images then
    { store := s1, trace := [.storeRead, .quotaCheck], outcome := .quotaExceeded }
  else
    let v := validate_prompt prompt
    if v.1 = false then
      { store := s1, trace := [.storeRead, .quotaCheck, .validateStage]
        outcome := .validationError v.2 }
    else
      let enhanced := enhance_prompt prompt style_name quality_name
      match modelId model_name with
      | none =>
          { store := s1
            trace := [.storeRead, .quotaCheck, .validateStage, .enrichStage]
            outcome := .generationFailed }
      | some mid =>
          if disp enhanced mid then
            { store := update_user_generation s1 uid enhanced model_name
                style_name quality_name gtime
              trace := [.storeRead, .quotaCheck, .validateStage, .enrichStage,
                .dispatch, .record]
              outcome := .success enhanced }
          else
            { store := s1
              trace := [.storeRead, .quotaCheck, .validateStage, .enrichStage,
                .dispatch]
              outcome := .generationFailed }

-- ==================== CONCRETE FIXTURES ====================

/-- A free-tier user exactly at the daily ceiling, last active today (= 5). -/
def atCapUser : UserRow :=
  { user_id := "u1", username := "", total_generations := 10,
    daily_generations := 10, last_generation_date := 5,
    preferred_model := "FLUX.1", preferred_style := "Photorealistic",
    preferred_quality := "Standard", is_premium := false }

def capStore : Store := { users := [atCapUser], generations := [] }

/-- A view as delivered with a fresh generation result for `u1`. -/
def capView : AdvancedImageView :=
  mkView "attachment://generated_image.png" "a red fox" "u1" "FLUX.1" "Anime" "Standard"

/-- A user whose stored date (4) is not today (5). -/
def staleUser : UserRow :=
  { user_id := "u3", username := "", total_generations := 9,
    daily_generations := 7, last_generation_date := 4,
    preferred_model := "FLUX.1", preferred_style := "Photorealistic",
    preferred_quality := "Standard", is_premium := false }

def staleStore : Store := { users := [staleUser], generations := [] }

/-- A 501-character prompt. -/
def longPrompt : String := String.mk (List.replicate 501 'a')

/-- Iteration of `update_user_generation`: `n` consecutive calls of `update_user_generation` with fixed arguments
(one per successful generation). -/
def recGenIter (uid prompt model style quality : String) (gtime : Nat) :
    Nat → Store → Store
  | 0, s => s
  | n + 1, s =>
      recGenIter uid prompt model style quality gtime n
        (update_user_generation s uid prompt model style quality gtime)

/-- One successful zoom step against an always-succeeding dispatcher, used to
chain concrete zoom actions (each follow-up hands out a fresh view). -/
def zoomOnce (zoomIn : Bool) (v : AdvancedImageView) : AdvancedImageView :=
  ((generate_zoomed_image (fun _ _ => true) "macro shot" 0 zoomIn v
    emptyStore).newView).getD v

-- ==================== HELPER LEMMAS ====================

lemma find?_append_of_none {p : UserRow → Bool} :
    ∀ {l1 : List UserRow} (l2 : List UserRow), l1.find? p = none →
      (l1 ++ l2).find? p = l2.find? p := by
  intro l1
  induction l1 with
  | nil => intro l2 _; rfl
  | cons a t ih =>
      intro l2 h
      cases hpa : p a with
      | true => simp [List.find?, hpa] at h
      | false =>
          simp only [List.find?, hpa] at h
          simp [List.cons_append, List.find?, hpa, ih l2 h]

lemma find?_map_of_pres {p : UserRow → Bool} {f : UserRow → UserRow}
    (hf : ∀ x, p (f x) = p x) :
    ∀ l : List UserRow, (l.map f).find? p = (l.find? p).map f := by
  intro l
  induction l with
  | nil => rfl
  | cons a t ih =>
      cases hpa : p a with
      | true => simp [List.map, List.find?, hf a, hpa]
      | false => simp [List.map, List.find?, hf a, hpa, ih]

lemma find?_eq_some_pred {p : UserRow → Bool} {l : List UserRow} {u : UserRow}
    (h : l.find? p = some u) : p u = true := by
  induction l with
  | nil => simp [List.find?] at h
  | cons a t ih =>
      cases hpa : p a with
      | true =>
          simp only [List.find?, hpa] at h
          cases h; exact hpa
      | false =>
          simp only [List.find?, hpa] at h
          exact ih h

lemma rolloverUser_id_pres (today : Nat) (uid : String) (x : UserRow) :
    ((rolloverUser today uid x).user_id == uid) = (x.user_id == uid) := by
  unfold rolloverUser
  split <;> rfl

lemma bumpUser_id_pres (uid : String) (x : UserRow) :
    ((bumpUser uid x).user_id == uid) = (x.user_id == uid) := by
  unfold bumpUser
  split <;> rfl

/-- After a rollover pass, looking up `uid` finds the reset row. -/
lemma findUser_after_rollover {s : Store} {uid : String} {u : UserRow}
    (today : Nat) (h : findUser s uid = some u) :
    findUser { s with users := s.users.map (rolloverUser today uid) } uid =
      some { u with daily_generations := 0, last_generation_date := today } := by
  unfold findUser at h ⊢
  rw [find?_map_of_pres (rolloverUser_id_pres today uid), h]
  have hp : (u.user_id == uid) = true := find?_eq_some_pred h
  simp [rolloverUser, hp]

/-- After a counter bump, looking up `uid` finds the incremented row. -/
lemma findUser_after_bump {s : Store} {uid : String} {u : UserRow}
    (prompt model style quality : String) (gtime : Nat)
    (h : findUser s uid = some u) :
    findUser (update_user_generation s uid prompt model style quality gtime) uid =
      some { u with total_generations := u.total_generations + 1,
                    daily_generations := u.daily_generations + 1 } := by
  unfold findUser at h ⊢
  unfold update_user_generation
  rw [find?_map_of_pres (bumpUser_id_pres uid), h]
  have hp : (u.user_id == uid) = true := find?_eq_some_pred h
  simp [bumpUser, hp]

/-- Reading via `get_user_data` never touches the `generations` table. -/
lemma get_user_data_generations (s : Store) (today : Nat) (uid : String) :
    (get_user_data s today uid).1.generations = s.generations := by
  unfold get_user_data
  split <;> (try split) <;> rfl

-- ==================== CLAIM THEOREMS ====================

/-- Claim C1 (code-bug evidence): the `/imagine` path does refuse to dispatch
for a free user at the ceiling (zero `dispatch` events), but the Variation and
Zoom In follow-up handlers call the external capability unconditionally — the
same at-ceiling user gets one `dispatch` event each, with no quota check in
the handler at all. -/
theorem variation_and_zoom_dispatch_at_ceiling :
    atCapUser.daily_generations = MAX_IMAGES_PER_USER_FREE
    ∧ atCapUser.is_premium = false
    ∧ (imagine (fun _ _ => true) 0 capStore 5 "u1" "a red fox"
        none none none).trace.count Event.dispatch = 0
    ∧ (variation_button (fun _ _ => true) "artistic variation" 0 capView
        capStore).trace.count Event.dispatch = 1
    ∧ (generate_zoomed_image (fun _ _ => true) "extreme close-up" 0 true capView
        capStore).trace.count Event.dispatch = 1 := by
  decide

/-- Claim C2 (code-bug evidence): starting from a store whose only user is a
free-tier account exactly at the ceiling (10), one Variation button press
yields a reachable store in which `daily_generations = 11 > 10`, and the
generation is recorded. -/
theorem variation_breaks_ceiling_invariant :
    findUser capStore "u1" = some atCapUser
    ∧ atCapUser.daily_generations = MAX_IMAGES_PER_USER_FREE
    ∧ (findUser (variation_button (fun _ _ => true) "artistic variation" 0 capView
          capStore).store "u1").map (fun u => u.daily_generations) = some 11
    ∧ (variation_button (fun _ _ => true) "artistic variation" 0 capView
          capStore).store.generations.length = 1
    ∧ ¬ (11 ≤ MAX_IMAGES_PER_USER_FREE) := by
  decide

/-- Claim C3 (counterexample): on a concrete successful `/imagine` run the
stage trace is store read, quota check, validation, enrichment, dispatch,
record — so the validation stage does NOT happen before the quota check as
the claim states. -/
theorem imagine_quota_precedes_validation :
    (imagine (fun _ _ => true) 2 emptyStore 5 "u1" "a cat" none none none).trace
      = [Event.storeRead, Event.quotaCheck, Event.validateStage,
         Event.enrichStage, Event.dispatch, Event.record]
    ∧ ¬ ((imagine (fun _ _ => true) 2 emptyStore 5 "u1" "a cat"
            none none none).trace.indexOf Event.validateStage
          < (imagine (fun _ _ => true) 2 emptyStore 5 "u1" "a cat"
            none none none).trace.indexOf Event.quotaCheck) := by
  decide

/-- Claim C3 (amended): for every inbound `/imagine` command the stages run in
the order store read, quota check, validation, enrichment, dispatch, store
record — every run's trace is a prefix of that sequence. -/
theorem imagine_stage_order (disp : String → String → Bool) (gtime : Nat)
    (s : Store) (today : Nat) (uid prompt : String)
    (style quality model : Option String) :
    ∃ k, (imagine disp gtime s today uid prompt style quality model).trace =
      List.take k [Event.storeRead, Event.quotaCheck, Event.validateStage,
        Event.enrichStage, Event.dispatch, Event.record] := by
  simp only [imagine]
  repeat' split
  all_goals first
    | exact ⟨2, rfl⟩
    | exact ⟨3, rfl⟩
    | exact ⟨4, rfl⟩
    | exact ⟨5, rfl⟩
    | exact ⟨6, rfl⟩

/-- Claim C7: `enhance_prompt` appends the style's descriptor phrase, then
appends ", high quality, detailed, sharp" exactly when quality is "High" or
"Ultra"; on ("a red fox", Anime, Standard) it yields exactly the expected
string.  (It is a pure function, hence deterministic.) -/
theorem enhance_prompt_spec (prompt style quality descriptor : String)
    (h : styleLookup style = some descriptor) :
    enhance_prompt prompt style quality =
      (if quality = "High" ∨ quality = "Ultra" then
        (prompt ++ ", " ++ descriptor) ++ ", high quality, detailed, sharp"
       else prompt ++ ", " ++ descriptor)
    ∧ enhance_prompt "a red fox" "Anime" "Standard"
        = "a red fox, anime style, manga, cel shading, vibrant colors" := by
  constructor
  · unfold enhance_prompt
    rw [h]
  · decide

/-- Witness for C7 at a concrete input. -/
theorem enhance_prompt_spec_witness :
    enhance_prompt "a red fox" "Anime" "Standard"
      = "a red fox, anime style, manga, cel shading, vibrant colors" :=
  (enhance_prompt_spec "a red fox" "Anime" "Standard"
    "anime style, manga, cel shading, vibrant colors" (by decide)).2

/-- Claim C8: `validate_prompt` rejects a prompt iff its length exceeds 500
characters or its lowercase form contains "nsfw" or "explicit" as a
substring. -/
theorem validate_prompt_iff (prompt : String) :
    (validate_prompt prompt).1 = false ↔
      (prompt.length > 500
       ∨ strHasSub (strLower prompt) "nsfw" = true
       ∨ strHasSub (strLower prompt) "explicit" = true) := by
  unfold validate_prompt MAX_PROMPT_LENGTH blocked_words
  by_cases h1 : prompt.length > 500
  · simp [h1]
  · simp only [if_neg h1]
    by_cases h2 : strHasSub (strLower prompt) "nsfw" = true
    · simp [h1, h2]
    · by_cases h3 : strHasSub (strLower prompt) "explicit" = true
      · simp [h1, h2, h3]
      · simp [h1, h2, h3]

/-- Claim C5: `get_user_data` resets `daily_generations` to 0 and sets
`last_generation_date` to today exactly when the stored date differs from
today (when it equals today, store and row are returned unchanged), and the
read is idempotent within a day. -/
theorem get_user_data_rollover (s : Store) (today : Nat) (uid : String) :
    (∀ u, findUser s uid = some u → u.last_generation_date ≠ today →
        (get_user_data s today uid).2.daily_generations = 0
        ∧ (get_user_data s today uid).2.last_generation_date = today)
    ∧ (∀ u, findUser s uid = some u → u.last_generation_date = today →
        get_user_data s today uid = (s, u))
    ∧ get_user_data (get_user_data s today uid).1 today uid
        = get_user_data s today uid := by
  refine ⟨?_, ?_, ?_⟩
  · intro u hu hne
    unfold get_user_data
    rw [hu]
    dsimp only
    rw [if_pos hne]
    exact ⟨rfl, rfl⟩
  · intro u hu heq
    unfold get_user_data
    rw [hu]
    dsimp only
    rw [if_neg (not_not_intro heq)]
  · cases hfind : findUser s uid with
    | none =>
        have hr : get_user_data s today uid =
            ({ s with users := s.users ++ [defaultUser uid today] },
             defaultUser uid today) := by
          unfold get_user_data
          rw [hfind]
        rw [hr]
        have h2 : findUser { s with users := s.users ++ [defaultUser uid today] } uid
            = some (defaultUser uid today) := by
          unfold findUser at hfind ⊢
          rw [find?_append_of_none [defaultUser uid today] hfind]
          simp [List.find?, defaultUser]
        unfold get_user_data
        rw [h2]
        dsimp only
        rw [if_neg (show ¬((defaultUser uid today).last_generation_date ≠ today) from
          not_not_intro rfl)]
    | some u =>
        by_cases hdate : u.last_generation_date = today
        · have hr : get_user_data s today uid = (s, u) := by
            unfold get_user_data
            rw [hfind]
            dsimp only
            rw [if_neg (not_not_intro hdate)]
          rw [hr]
          exact hr
        · have hr : get_user_data s today uid =
              ({ s with users := s.users.map (rolloverUser today uid) },
               { u with daily_generations := 0, last_generation_date := today }) := by
            unfold get_user_data
            rw [hfind]
            dsimp only
            rw [if_pos hdate]
          rw [hr]
          have h2 := findUser_after_rollover today hfind
          unfold get_user_data
          rw [h2]
          dsimp only
          rw [if_neg (show ¬(today ≠ today) from not_not_intro rfl)]

/-- Witness for C5: a user last active on day 4 read on day 5 has the daily
counter reset. -/
theorem get_user_data_rollover_witness :
    (get_user_data staleStore 5 "u3").2.daily_generations = 0 :=
  (((get_user_data_rollover staleStore 5 "u3").1) staleUser (by decide) (by decide)).1

lemma findUser_after_iter (uid prompt model style quality : String) (gtime : Nat) :
    ∀ (n : Nat) (s : Store) (u : UserRow), findUser s uid = some u →
      findUser (recGenIter uid prompt model style quality gtime n s) uid =
        some { u with total_generations := u.total_generations + n,
                      daily_generations := u.daily_generations + n } := by
  intro n
  induction n with
  | zero => intro s u h; simpa using h
  | succ n ih =>
      intro s u h
      have h2 := ih _ _ (findUser_after_bump prompt model style quality gtime h)
      simp only [recGenIter]
      rw [h2]
      have ht : u.total_generations + 1 + n = u.total_generations + (n + 1) := by omega
      have hd : u.daily_generations + 1 + n = u.daily_generations + (n + 1) := by omega
      rw [ht, hd]

/-- In every run of `imagine` that ends in `generationFailed`, the store is
exactly the post-read store: no counter bump, no generation row, no `record`
event. -/
lemma imagine_failed_effects (disp : String → String → Bool) (gtime : Nat)
    (s : Store) (today : Nat) (uid prompt : String)
    (style quality model : Option String)
    (h : (imagine disp gtime s today uid prompt style quality model).outcome
      = Outcome.generationFailed) :
    (imagine disp gtime s today uid prompt style quality model).store
        = (get_user_data s today uid).1
    ∧ (imagine disp gtime s today uid prompt style quality model).trace.count
        Event.record = 0 := by
  revert h
  simp only [imagine]
  repeat' split
  all_goals intro h
  all_goals first
    | exact Outcome.noConfusion h
    | exact ⟨rfl, rfl⟩

/-- Claim C6: `update_user_generation` increments `total_generations` and
`daily_generations` by exactly 1 and appends exactly one generation row; it
runs only after a successful external call — an `/imagine` run that ends in
`generationFailed` leaves the post-read store untouched (no record) — and
`n` consecutive recorded generations add exactly `n` to both counters, so a
user starting the day at 0 ends at `n`. -/
theorem update_user_generation_spec (s : Store) (today gtime n : Nat)
    (uid prompt model style quality p2 : String)
    (disp : String → String → Bool) (st qu mo : Option String) (u : UserRow)
    (hu : findUser s uid = some u) :
    (update_user_generation s uid prompt model style quality gtime).generations
        = s.generations ++
          [{ user_id := uid, prompt := prompt, model_used := model,
             style_used := style, quality_used := quality, generation_time := gtime }]
    ∧ findUser (update_user_generation s uid prompt model style quality gtime) uid
        = some { u with total_generations := u.total_generations + 1,
                        daily_generations := u.daily_generations + 1 }
    ∧ findUser (recGenIter uid prompt model style quality gtime n s) uid
        = some { u with total_generations := u.total_generations + n,
                        daily_generations := u.daily_generations + n }
    ∧ ((imagine disp gtime s today uid p2 st qu mo).outcome = Outcome.generationFailed →
        (imagine disp gtime s today uid p2 st qu mo).store = (get_user_data s today uid).1
        ∧ (imagine disp gtime s today uid p2 st qu mo).store.generations = s.generations
        ∧ (imagine disp gtime s today uid p2 st qu mo).trace.count Event.record = 0) := by
  refine ⟨rfl, findUser_after_bump prompt model style quality gtime hu,
    findUser_after_iter uid prompt model style quality gtime n s u hu, ?_⟩
  intro h
  have he := imagine_failed_effects disp gtime s today uid p2 st qu mo h
  refine ⟨he.1, ?_, he.2⟩
  rw [he.1]
  exact get_user_data_generations s today uid

/-- Witness for C6 at a concrete input. -/
theorem update_user_generation_spec_witness :
    (update_user_generation capStore "u1" "p" "FLUX.1" "Anime" "Standard" 0).generations
      = capStore.generations ++
        [{ user_id := "u1", prompt := "p", model_used := "FLUX.1",
           style_used := "Anime", quality_used := "Standard", generation_time := 0 }] :=
  (update_user_generation_spec capStore 5 0 3 "u1" "p" "FLUX.1" "Anime" "Standard"
    "a cat" (fun _ _ => true) none none none atCapUser (by decide)).1

/-- Claim C9: a fresh session starts at zoom level 1; whenever a zoom action
hands out a new view, Zoom In sets `level + 1` (uncapped) and Zoom Out sets
`max 1 (level - 1)`; concretely, three Zoom In actions from a fresh session
reach level 4, a further Zoom Out returns to 3, and Zoom Out at level 1
stays at 1. -/
theorem zoom_level_spec (disp : String → String → Bool) (modifier : String)
    (gtime : Nat) (zoomIn : Bool) (v nv : AdvancedImageView) (s : Store)
    (h : (generate_zoomed_image disp modifier gtime zoomIn v s).newView = some nv) :
    (∀ i p u m st q, (mkView i p u m st q).zoom_level = 1)
    ∧ nv.zoom_level =
        (if zoomIn then v.zoom_level + 1 else max 1 (v.zoom_level - 1))
    ∧ (zoomOnce true (zoomOnce true (zoomOnce true capView))).zoom_level = 4
    ∧ (zoomOnce false (zoomOnce true (zoomOnce true
        (zoomOnce true capView)))).zoom_level = 3
    ∧ (zoomOnce false capView).zoom_level = 1 := by
  refine ⟨fun i p u m st q => rfl, ?_, by decide, by decide, by decide⟩
  revert h
  simp only [generate_zoomed_image]
  repeat' split
  all_goals intro h
  all_goals first
    | exact Option.noConfusion h
    | (cases h; rfl)

/-- Witness for C9 at a concrete input. -/
theorem zoom_level_spec_witness : (zoomOnce false capView).zoom_level = 1 :=
  (zoom_level_spec (fun _ _ => true) "macro shot" 0 true capView
    (zoomOnce true capView) emptyStore (by decide)).2.2.2.2

/-- Claim C10: every store operation preserves
`daily_generations ≤ total_generations` for every user row: account creation
starts both at 0, the read (with possible rollover) only lowers the daily
counter, recording a generation raises both by 1, and preference updates
touch neither counter. -/
theorem counters_invariant (s : Store) (today gtime : Nat)
    (uid prompt model style quality : String) (mo sty qu : Option String)
    (hinv : ∀ u ∈ s.users, u.daily_generations ≤ u.total_generations) :
    ((defaultUser uid today).total_generations = 0
      ∧ (defaultUser uid today).daily_generations = 0)
    ∧ (∀ u ∈ (get_user_data s today uid).1.users,
        u.daily_generations ≤ u.total_generations)
    ∧ (∀ u ∈ (update_user_generation s uid prompt model style quality gtime).users,
        u.daily_generations ≤ u.total_generations)
    ∧ (∀ u ∈ (update_user_preferences s uid mo sty qu).users,
        u.daily_generations ≤ u.total_generations) := by
  refine ⟨⟨rfl, rfl⟩, ?_, ?_, ?_⟩
  · unfold get_user_data
    split
    · intro u hu
      rcases List.mem_append.mp hu with hmem | hmem
      · exact hinv u hmem
      · rw [List.mem_singleton.mp hmem]
        exact Nat.le_refl 0
    · split
      · intro u hu
        rcases List.mem_map.mp hu with ⟨x, hx, rfl⟩
        unfold rolloverUser
        split
        · exact Nat.zero_le _
        · exact hinv x hx
      · exact hinv
  · intro u hu
    rcases List.mem_map.mp hu with ⟨x, hx, rfl⟩
    unfold bumpUser
    split
    · exact Nat.succ_le_succ (hinv x hx)
    · exact hinv x hx
  · intro u hu
    rcases List.mem_map.mp hu with ⟨x, hx, rfl⟩
    unfold setPrefs
    split
    · exact hinv x hx
    · exact hinv x hx

/-- Witness for C10 at a concrete input. -/
theorem counters_invariant_witness :
    (defaultUser "u1" 5).total_generations = 0
      ∧ (defaultUser "u1" 5).daily_generations = 0 :=
  (counters_invariant capStore 5 0 "u1" "p" "m" "st" "q" none none none
    (by decide)).1

/-- Claim C4 (counterexample): a previously unseen user issuing a
501-character prompt gets the `ValidationError` and no dispatch, but the
durable store IS mutated: the initial read inserts the new account row into
the `users` table. -/
theorem long_prompt_store_mutation :
    (imagine (fun _ _ => true) 0 emptyStore 5 "u1" longPrompt
        none none none).outcome
      = Outcome.validationError "Prompt too long! Maximum 500 characters."
    ∧ (imagine (fun _ _ => true) 0 emptyStore 5 "u1" longPrompt
        none none none).store ≠ emptyStore
    ∧ (imagine (fun _ _ => true) 0 emptyStore 5 "u1" longPrompt
        none none none).store.users.length = 1
    ∧ emptyStore.users.length = 0 := by
  decide

/-- Claim C4 (amended): for a user below the tier ceiling, any prompt longer
than 500 characters yields the `ValidationError`, no dispatcher call and no
record: the resulting store is exactly the post-read store (so the
`generations` table and both counters are untouched; the read itself may
still initialize the account row or perform the daily rollover). -/
theorem long_prompt_rejected (disp : String → String → Bool) (gtime : Nat)
    (s : Store) (today : Nat) (uid prompt : String)
    (style quality model : Option String)
    (hlen : prompt.length > 500)
    (hq : (get_user_data s today uid).2.daily_generations <
      (if (get_user_data s today uid).2.is_premium then MAX_IMAGES_PER_USER_PREMIUM
       else MAX_IMAGES_PER_USER_FREE)) :
    (imagine disp gtime s today uid prompt style quality model).outcome
        = Outcome.validationError "Prompt too long! Maximum 500 characters."
    ∧ (imagine disp gtime s today uid prompt style quality model).store
        = (get_user_data s today uid).1
    ∧ (imagine disp gtime s today uid prompt style quality model).store.generations
        = s.generations
    ∧ (imagine disp gtime s today uid prompt style quality model).trace.count
        Event.dispatch = 0
    ∧ (imagine disp gtime s today uid prompt style quality model).trace.count
        Event.record = 0 := by
  have hv : validate_prompt prompt
      = (false, "Prompt too long! Maximum 500 characters.") := by
    unfold validate_prompt MAX_PROMPT_LENGTH
    rw [if_pos hlen]
  simp only [imagine]
  split
  next hp =>
    rw [if_pos hp] at hq
    split
    next hge => exact absurd hge (Nat.not_le.mpr hq)
    next hlt =>
      split
      next hvf =>
        refine ⟨by rw [hv], rfl, get_user_data_generations s today uid, rfl, rfl⟩
      next hvt => exact absurd (by rw [hv]) hvt
  next hp =>
    rw [if_neg hp] at hq
    split
    next hge => exact absurd hge (Nat.not_le.mpr hq)
    next hlt =>
      split
      next hvf =>
        refine ⟨by rw [hv], rfl, get_user_data_generations s today uid, rfl, rfl⟩
      next hvt => exact absurd (by rw [hv]) hvt

/-- Witness for C4 at a concrete input. -/
theorem long_prompt_rejected_witness :
    (imagine (fun _ _ => true) 0 emptyStore 5 "u2" longPrompt
        none none none).outcome
      = Outcome.validationError "Prompt too long! Maximum 500 characters." :=
  (long_prompt_rejected (fun _ _ => true) 0 emptyStore 5 "u2" longPrompt
    none none none (by decide) (by decide)).1
